import Mathlib

/-!
Shallow embedding of the intel-8008-vhdl capture-analysis tools.

The repository analyses logic-analyzer CSV captures of an Intel-8008 bus.
Each data row carries a timestamp and single-character signal values
(`'0'`, `'1'`, or an indeterminate marker such as `'?'`).  We embed each
tool's decision logic as Lean functions over a `Row` record:

* `STATES`, `get_state`, `get_state_ts`, `decode_state_cit` — the
  3-bit state decoders of `analyze_glitches.py` / `trace_execution.py`,
  `trace_states.py`, and `check_int_timing.py`;
* `get_data_byte` — the 8-bit data-bus reconstruction shared by the tools
  (`int(bits, 2) if '?' not in bits else None`, where `int` raising on a
  non-binary character is modelled as `Except.error`);
* `ag_run` — the main loop of `analyze_glitches.py` (bus-contention and
  CP_D_EN-glitch detection);
* `te_run` — the main loop of `trace_execution.py` (instruction tracing);
* `ts_run` — the main loop of `trace_states.py` (per-transition reports);
* `cit_loop` — the row loop of `check_int_timing.py`;
* `fie_loop` — the edge loop of `find_int_edges.py`.

Python's `float(...)` timestamp parse is modelled by giving each row an
`Option Int` timestamp (`none` = the string does not parse, in which case
the pass aborts), with timestamps taken in integer microseconds.  Python
exceptions are modelled as `Except.error` results threaded through each
loop.
-/

deriving instance DecidableEq for Except

/-- One parsed CSV data row.  Signal values are single characters as they
appear in the capture (after `.strip()`): `'0'`, `'1'`, or an
indeterminate marker.  `time` is `none` when the timestamp text does not
parse as a number. -/
structure Row where
  time : Option Int
  sync : Char
  s2 : Char
  s1 : Char
  s0 : Char
  cp_d_en : Char
  int_sig : Char
  d7 : Char
  d6 : Char
  d5 : Char
  d4 : Char
  d3 : Char
  d2 : Char
  d1 : Char
  d0 : Char
deriving Repr, DecidableEq

/-- The `STATES` dict shared verbatim by `analyze_glitches.py`,
`trace_execution.py` and `trace_states.py` (S2 S1 S0 concatenated). -/
def STATES (bits : String) : Option String :=
  if bits = ("010" : String) then some ("T1" : String)
  else if bits = ("100" : String) then some ("T2" : String)
  else if bits = ("001" : String) then some ("T3" : String)
  else if bits = ("110" : String) then some ("T1I" : String)
  else if bits = ("011" : String) then some ("STOPPED" : String)
  else if bits = ("111" : String) then some ("T4" : String)
  else if bits = ("101" : String) then some ("T5" : String)
  else if bits = ("000" : String) then some ("TWAIT" : String)
  else none

/-- The concatenated state-select bits `row[' S2'] + row[' S1'] + row[' S0']`. -/
def stateBits (r : Row) : String :=
  String.mk [r.s2, r.s1, r.s0]

/-- `get_state` of `analyze_glitches.py` / `trace_execution.py`:
`STATES.get(bits, f'UNKNOWN({bits})')`. -/
def get_state (r : Row) : String :=
  (STATES (stateBits r)).getD (("UNKNOWN(" : String) ++ stateBits r ++ (")" : String))

/-- `get_state` of `trace_states.py`: `STATES.get(bits, f'UNK({bits})')`. -/
def get_state_ts (r : Row) : String :=
  (STATES (stateBits r)).getD (("UNK(" : String) ++ stateBits r ++ (")" : String))

/-- The inline state decode of `check_int_timing.py` (lines 42-55): an
if/elif chain covering only six patterns; `011` and `000` fall through to
the initial `'UNKNOWN'`. -/
def decode_state_cit (s2 s1 s0 : String) : String :=
  if s2 = ("0" : String) ∧ s1 = ("1" : String) ∧ s0 = ("0" : String) then ("T1" : String)
  else if s2 = ("1" : String) ∧ s1 = ("0" : String) ∧ s0 = ("0" : String) then ("T2" : String)
  else if s2 = ("0" : String) ∧ s1 = ("0" : String) ∧ s0 = ("1" : String) then ("T3" : String)
  else if s2 = ("1" : String) ∧ s1 = ("1" : String) ∧ s0 = ("0" : String) then ("T1I" : String)
  else if s2 = ("1" : String) ∧ s1 = ("0" : String) ∧ s0 = ("1" : String) then ("T5" : String)
  else if s2 = ("1" : String) ∧ s1 = ("1" : String) ∧ s0 = ("1" : String) then ("T4" : String)
  else ("UNKNOWN" : String)

/-- The data-bus bit characters of a row, MSB first (`D7` down to `D0`),
as concatenated by `get_data_byte`. -/
def dataBits (r : Row) : List Char :=
  [r.d7, r.d6, r.d5, r.d4, r.d3, r.d2, r.d1, r.d0]

/-- One binary digit for Python's `int(bits, 2)`: `none` when the
character is not a binary digit (where `int` raises `ValueError`). -/
def bitVal? (c : Char) : Option Nat :=
  if c = '0' then some 0 else if c = '1' then some 1 else none

/-- Left-to-right accumulation of `int(bits, 2)`; `none` models the
`ValueError` raised on a non-binary character. -/
def parseBin (acc : Nat) : List Char → Option Nat
  | [] => some acc
  | c :: cs =>
    match bitVal? c with
    | some b => parseBin (2 * acc + b) cs
    | none => none

/-- `get_data_byte` as shared by `analyze_glitches.py`,
`trace_execution.py` and `trace_states.py`:
`int(bits, 2) if '?' not in bits else None`.  `.ok none` is Python's
`None` (indeterminate byte); `.error` is the uncaught `ValueError` when a
bit is neither binary nor `'?'`. -/
def get_data_byte (r : Row) : Except String (Option Nat) :=
  if '?' ∈ dataBits r then Except.ok none
  else
    match parseBin 0 (dataBits r) with
    | some v => Except.ok (some v)
    | none => Except.error ("ValueError: invalid literal for int() with base 2" : String)

/-- The data byte a row contributes when extraction does not raise:
`some v` for a resolved byte, `none` for Python's `None`. -/
def rowData (r : Row) : Option Nat :=
  match get_data_byte r with
  | Except.ok v => v
  | Except.error _ => none

/-- Numeric value of a resolved bit character (used only to state the
MSB-first reconstruction; non-binary characters never reach it). -/
def b2n (c : Char) : Nat :=
  if c = '1' then 1 else 0

/-- Distinct elements of a list in first-occurrence order (the model of
iterating over Python's `set(state_data_values)`). -/
def distinctVals : List Nat → List Nat
  | [] => []
  | v :: vs => v :: (distinctVals vs).filter (fun w => w ≠ v)

/-- Each distinct value paired with its occurrence count, as printed by
the bus-contention report. -/
def withCounts (l : List Nat) : List (Nat × Nat) :=
  (distinctVals l).map (fun v => (v, l.count v))

/-- A bus-contention report of `analyze_glitches.py` (lines 97-107):
the enclosing state (`prev_state`, `none` before the first transition),
the distinct data values with counts, and the sample index range
`current_state_start - i`. -/
structure Contention where
  state : Option String
  vals : List (Nat × Nat)
  startIdx : Nat
  endIdx : Nat
deriving Repr, DecidableEq

/-- A CP_D_EN glitch report of `analyze_glitches.py` (lines 119-122):
line index, old and new values, and the decoded state and sync value at
that line. -/
structure CpGlitch where
  line : Nat
  old : Option Char
  new : Char
  state : String
  sync : Char
deriving Repr, DecidableEq

/-- The mutable loop state of `analyze_glitches.py` (lines 74-126).
`transitions` records the indices at which the sync-rising-edge branch
fired (observable in the source as the start of each new state window). -/
structure AGState where
  i : Nat
  prev_sync : Option Char
  prev_state : Option String
  prev_data : Option Nat
  prev_cp_d_en : Option Char
  current_state_start : Nat
  state_data_values : List Nat
  contentions : List Contention
  cpGlitches : List CpGlitch
  transitions : List Nat
deriving Repr, DecidableEq

/-- The loop state before the first row. -/
def ag_init : AGState :=
  { i := 0, prev_sync := none, prev_state := none, prev_data := none,
    prev_cp_d_en := none, current_state_start := 0, state_data_values := [],
    contentions := [], cpGlitches := [], transitions := [] }

/-- One iteration of the `analyze_glitches.py` loop body on row `r` whose
extracted data byte is `data` (lines 85-126 of the source, in source
order: transition branch, data tracking, CP_D_EN check, previous-value
updates). -/
def ag_step (r : Row) (data : Option Nat) (st : AGState) : AGState :=
  let st1 :=
    if r.sync = '1' ∧ st.prev_sync = some '0' then
      let st' :=
        if 1 < st.state_data_values.length ∧ 1 < (distinctVals st.state_data_values).length then
          { st with contentions := st.contentions ++
              [⟨st.prev_state, withCounts st.state_data_values, st.current_state_start, st.i⟩] }
        else st
      { st' with current_state_start := st.i, state_data_values := ([] : List Nat),
                 prev_state := some (get_state r),
                 transitions := st'.transitions ++ [st.i] }
    else st
  let st2 :=
    match data with
    | some v => { st1 with state_data_values := st1.state_data_values ++ [v] }
    | none => st1
  let st3 :=
    if st.prev_cp_d_en ≠ some r.cp_d_en ∧ st.prev_sync = some r.sync ∧ r.sync ≠ '?' then
      { st2 with cpGlitches := st2.cpGlitches ++
          [⟨st.i, st.prev_cp_d_en, r.cp_d_en, get_state r, r.sync⟩] }
    else st2
  { st3 with prev_sync := some r.sync, prev_data := data,
             prev_cp_d_en := some r.cp_d_en, i := st.i + 1 }

/-- The `analyze_glitches.py` loop over a list of rows.  A row whose
timestamp does not parse, or whose data bits make `int` raise, aborts the
pass with an error, exactly as the uncaught Python exception would. -/
def ag_run : List Row → AGState → Except String AGState
  | [], st => Except.ok st
  | r :: rest, st =>
    match r.time with
    | none => Except.error ("ValueError: could not convert string to float" : String)
    | some _ =>
      match get_data_byte r with
      | Except.ok data => ag_run rest (ag_step r data st)
      | Except.error e => Except.error e

/-- `analyze_glitches` with no time-range filter (the filter is only
entered when optional CLI arguments are given and is the identity
otherwise). -/
def analyze_glitches (rows : List Row) : Except String AGState :=
  ag_run rows ag_init

/-- Specification rendering of the bus-contention rule, in the spec's
window language: samples are split into windows at each recognized 0→1
sync edge (the edge sample opens the new window); a window CLOSED by a
subsequent edge yields one report exactly when two or more distinct
resolved data values occurred in it; the final window, still open at
end-of-stream, never yields a report.  Arguments carry the in-progress
window (its opening state, collected values, start index) and the index
of the next sample. -/
def contentionSpec (prev : Option Char) (pendState : Option String)
    (pendVals : List Nat) (startIdx k : Nat) : List Row → List Contention
  | [] => []
  | r :: rest =>
    if r.sync = '1' ∧ prev = some '0' then
      (if 2 ≤ (distinctVals pendVals).length then
        [⟨pendState, withCounts pendVals, startIdx, k⟩]
      else []) ++
      contentionSpec (some r.sync) (some (get_state r)) (rowData r).toList k (k + 1) rest
    else
      contentionSpec (some r.sync) pendState (pendVals ++ (rowData r).toList) startIdx (k + 1) rest

/-- CP_D_EN glitch reports predicted from an explicit previous sync /
previous CP_D_EN context (the bridge between the loop state and the
adjacent-pair specification). -/
def cpSpecFrom (ps pc : Option Char) (k : Nat) : List Row → List CpGlitch
  | [] => []
  | r :: rest =>
    (if pc ≠ some r.cp_d_en ∧ ps = some r.sync ∧ r.sync ≠ '?' then
      [⟨k, pc, r.cp_d_en, get_state r, r.sync⟩]
    else []) ++
    cpSpecFrom (some r.sync) (some r.cp_d_en) (k + 1) rest

/-- Adjacent-pair specification of the CP_D_EN glitch rule: a report at
sample `k + 1` exactly when the monitored value differs between the two
adjacent samples, the sync value is unchanged across the pair, and is not
indeterminate.  The first sample never reports. -/
def cpPairSpec (k : Nat) : List Row → List CpGlitch
  | [] => []
  | [_] => []
  | a :: b :: rest =>
    (if (some a.cp_d_en : Option Char) ≠ some b.cp_d_en ∧ (some a.sync : Option Char) = some b.sync ∧ b.sync ≠ '?' then
      [⟨k + 1, some a.cp_d_en, b.cp_d_en, get_state b, b.sync⟩]
    else []) ++
    cpPairSpec (k + 1) (b :: rest)

/-- Sync rising edges predicted from an explicit previous sync value. -/
def edgeSpecFrom (ps : Option Char) (k : Nat) : List Row → List Nat
  | [] => []
  | r :: rest =>
    (if r.sync = '1' ∧ ps = some '0' then [k] else []) ++
    edgeSpecFrom (some r.sync) (k + 1) rest

/-- Adjacent-pair specification of sync edge detection: a transition at
sample `k + 1` exactly when the previous sample's sync is `'0'` and this
sample's is `'1'`; the first sample never qualifies. -/
def edgePairSpec (k : Nat) : List Row → List Nat
  | [] => []
  | [_] => []
  | a :: b :: rest =>
    (if b.sync = '1' ∧ a.sync = '0' then [k + 1] else []) ++
    edgePairSpec (k + 1) (b :: rest)

/-- INT rising edges predicted from an explicit previous INT value
(`find_int_edges.py` seeds this with `'0'`). -/
def intSpecFrom (prev : Char) (k : Nat) : List Row → List Nat
  | [] => []
  | r :: rest =>
    (if r.int_sig = '1' ∧ prev = '0' then [k] else []) ++
    intSpecFrom r.int_sig (k + 1) rest

/-- Adjacent-pair specification of INT edge detection (strict 0→1 edges
between adjacent samples, never the first sample). -/
def intPairSpec (k : Nat) : List Row → List Nat
  | [] => []
  | [_] => []
  | a :: b :: rest =>
    (if b.int_sig = '1' ∧ a.int_sig = '0' then [k + 1] else []) ++
    intPairSpec (k + 1) (b :: rest)

/-- The edge loop of `find_int_edges.py` (lines 32-44): `prev_int` is
initialised to `'0'` (not to a missing value), the timestamp is parsed
for every row (raising on a malformed one), and a 0→1 comparison against
`prev_int` appends the row's index. -/
def fie_loop (prev : Char) (k : Nat) : List Row → Except String (List Nat)
  | [] => Except.ok []
  | r :: rest =>
    match r.time with
    | none => Except.error ("ValueError: could not convert string to float" : String)
    | some _ =>
      match fie_loop r.int_sig (k + 1) rest with
      | Except.ok es =>
        Except.ok ((if r.int_sig = '1' ∧ prev = '0' then [k] else []) ++ es)
      | Except.error e => Except.error e

/-- `find_int_edges.py` run from its initial `prev_int = '0'`. -/
def find_int_edges (rows : List Row) : Except String (List Nat) :=
  fie_loop '0' 0 rows

/-- The `current_instr` dict of `trace_execution.py`: fetch (T1) and
opcode (T3) sample indices and data bytes. -/
structure Instr where
  t1_line : Option Nat
  t1_data : Option Nat
  t3_line : Option Nat
  t3_data : Option Nat
deriving Repr, DecidableEq

/-- The mutable loop state of `trace_execution.py` (lines 54-92).
`events` records, in order, each instruction printed at line 81 (an
instruction is printed only when a new T1 arrives with both `t1_line` and
`t3_data` set on the pending one). -/
structure TEState where
  i : Nat
  prev_sync : Option Char
  after_t1i : Bool
  instr_num : Nat
  events : List Instr
  current_instr : Instr
deriving Repr, DecidableEq

/-- The loop state before the first row. -/
def te_init : TEState :=
  { i := 0, prev_sync := none, after_t1i := false, instr_num := 0,
    events := [], current_instr := ⟨none, none, none, none⟩ }

/-- One iteration of the `trace_execution.py` loop body (lines 67-92) on
row `r` with extracted data `data`.  Returns the new state and whether
the `break` at line 90 fired (in which case `prev_sync` is not updated
and no further row is consumed). -/
def te_step (maxInstructions : Nat) (r : Row) (data : Option Nat) (st : TEState) :
    TEState × Bool :=
  if r.sync = '1' ∧ st.prev_sync = some '0' then
    let state := get_state r
    let st1 := if state = ("T1I" : String) then { st with after_t1i := true } else st
    if st1.after_t1i then
      let st2 :=
        if state = ("T1" : String) then
          let st' :=
            if st1.current_instr.t1_line ≠ none ∧ st1.current_instr.t3_data ≠ none then
              { st1 with instr_num := st1.instr_num + 1,
                         events := st1.events ++ [st1.current_instr] }
            else st1
          { st' with current_instr := ⟨some st.i, data, none, none⟩ }
        else if state = ("T3" : String) then
          { st1 with current_instr :=
              { st1.current_instr with t3_line := some st.i, t3_data := data } }
        else st1
      if maxInstructions ≤ st2.instr_num then (st2, true)
      else ({ st2 with prev_sync := some r.sync, i := st.i + 1 }, false)
    else ({ st1 with prev_sync := some r.sync, i := st.i + 1 }, false)
  else ({ st with prev_sync := some r.sync, i := st.i + 1 }, false)

/-- The `trace_execution.py` loop over a list of rows; the timestamp
parse and `get_data_byte` can abort the pass, and a fired `break` stops
consuming rows.  After the loop the source only prints a summary: a
still-pending `current_instr` is not appended to the emitted events. -/
def te_run (maxInstructions : Nat) : List Row → TEState → Except String TEState
  | [], st => Except.ok st
  | r :: rest, st =>
    match r.time with
    | none => Except.error ("ValueError: could not convert string to float" : String)
    | some _ =>
      match get_data_byte r with
      | Except.error e => Except.error e
      | Except.ok data =>
        if (te_step maxInstructions r data st).2 = true then
          Except.ok (te_step maxInstructions r data st).1
        else te_run maxInstructions rest (te_step maxInstructions r data st).1

/-- `trace_execution` with an explicit `max_instructions` argument. -/
def trace_execution (rows : List Row) (maxInstructions : Nat) : Except String TEState :=
  te_run maxInstructions rows te_init

/-- `trace_execution` as called with no CLI override: the
`max_instructions` parameter defaults to 30. -/
def trace_execution_default (rows : List Row) : Except String TEState :=
  trace_execution rows 30

/-- The `CYCLE_TYPES` dict of `trace_states.py`. -/
def CYCLE_TYPES (bits : String) : Option String :=
  if bits = ("00" : String) then some ("PCI" : String)
  else if bits = ("01" : String) then some ("PCR" : String)
  else if bits = ("10" : String) then some ("PCW" : String)
  else if bits = ("11" : String) then some ("PCC" : String)
  else none

/-- The two-character bit string `f'{(data >> 6) & 0x3:02b}'`. -/
def ctBits (v : Nat) : String :=
  let b := v / 64 % 4
  if b = 0 then ("00" : String)
  else if b = 1 then ("01" : String)
  else if b = 2 then ("10" : String)
  else ("11" : String)

/-- One per-transition report line of `trace_states.py` (line 97):
state counter, decoded state, resolved data byte, monitored values, and
the cycle-type annotation shown only for T2. -/
structure TsReport where
  stateNum : Nat
  state : String
  data : Nat
  cp : Char
  int_sig : Char
  cycleType : Option String
deriving Repr, DecidableEq

/-- The mutable loop state of `trace_states.py` (lines 61-102). -/
structure TSState where
  i : Nat
  prev_sync : Option Char
  prev_state : Option String
  state_num : Nat
  cycle_num : Nat
  reports : List TsReport
deriving Repr, DecidableEq

/-- The loop state before the first row. -/
def ts_init : TSState :=
  { i := 0, prev_sync := none, prev_state := none, state_num := 0,
    cycle_num := 0, reports := [] }

/-- The error message of Python's `f'...{data:02X}...'` when `data` is
`None` — the uncaught exception raised by line 97 of `trace_states.py`
whenever a transition sample's data byte is indeterminate. -/
def tsTypeErrorMsg : String :=
  "TypeError: unsupported format string passed to NoneType.__format__"

/-- The `trace_states.py` loop (lines 66-102) over a list of rows with
the `start_us`/`end_us` window arguments.  Rows before the window only
refresh `prev_sync`; a row after the window breaks.  At a sync rising
edge the report f-string formats the data byte with `:02X`, which raises
`TypeError` when the byte is indeterminate (`None`). -/
def ts_run (startUs endUs : Int) : List Row → TSState → Except String TSState
  | [], st => Except.ok st
  | r :: rest, st =>
    match r.time with
    | none => Except.error ("ValueError: could not convert string to float" : String)
    | some t =>
      if t < startUs then
        ts_run startUs endUs rest { st with prev_sync := some r.sync, i := st.i + 1 }
      else if endUs < t then Except.ok st
      else
        match get_data_byte r with
        | Except.error e => Except.error e
        | Except.ok data =>
          let state := get_state_ts r
          if r.sync = '1' ∧ st.prev_sync = some '0' then
            let stn := st.state_num + 1
            let cyc :=
              if state = ("T1" : String) ∨ state = ("T1I" : String) then st.cycle_num + 1
              else st.cycle_num
            match data with
            | none => Except.error tsTypeErrorMsg
            | some v =>
              let ct : Option String :=
                if state = ("T2" : String) then
                  some ((CYCLE_TYPES (ctBits v)).getD (("?(" : String) ++ ctBits v ++ (")" : String)))
                else none
              ts_run startUs endUs rest
                { st with state_num := stn, cycle_num := cyc,
                          reports := st.reports ++ [⟨stn, state, v, r.cp_d_en, r.int_sig, ct⟩],
                          prev_sync := some r.sync, prev_state := some state, i := st.i + 1 }
          else
            ts_run startUs endUs rest
              { st with prev_sync := some r.sync, prev_state := some state, i := st.i + 1 }

/-- `trace_states` run from the initial loop state. -/
def trace_states (startUs endUs : Int) (rows : List Row) : Except String TSState :=
  ts_run startUs endUs rows ts_init

/-- Value of a decimal digit character, `none` otherwise. -/
def digitVal? (c : Char) : Option Nat :=
  if c.isDigit then some (c.toNat - 48) else none

/-- Decimal accumulation over a character list; `none` on the first
non-digit. -/
def parseDigits (acc : Nat) : List Char → Option Nat
  | [] => some acc
  | c :: cs =>
    match digitVal? c with
    | some dv => parseDigits (10 * acc + dv) cs
    | none => none

/-- Model of Python's `float(...)` on integer-valued timestamp text
(negatives included): `none` means the text does not parse and the
uncaught ValueError aborts the pass. -/
def parseTimestamp (s : String) : Option Int :=
  match s.data with
  | [] => none
  | c :: cs =>
    if c = '-' then
      match cs with
      | [] => none
      | _ => (parseDigits 0 cs).map (fun n => -(n : Int))
    else (parseDigits 0 (c :: cs)).map (fun n => (n : Int))

/-- Leading and trailing spaces removed from a character list. -/
def stripChars (l : List Char) : List Char :=
  ((l.dropWhile (fun c => c = ' ')).reverse.dropWhile (fun c => c = ' ')).reverse

/-- Model of Python's `str.strip()` (the captures only ever carry space
padding). -/
def strip (s : String) : String :=
  String.mk (stripChars s.data)

/-- Outcome of the `check_int_timing.py` row loop: it either scans every
row, or stops at the first INT rising edge (printing the following lines
and breaking), or aborts with the uncaught `ValueError` from
`float(parts[0])`. -/
inductive CitOutcome where
  | completed : CitOutcome
  | foundEdge : Nat → Int → String → CitOutcome
  | errorFloat : Nat → CitOutcome
deriving Repr, DecidableEq

/-- The row loop of `check_int_timing.py` (lines 29-93) over
comma-split rows.  A row with fewer than 9 fields is skipped (without
updating `prev_int`); otherwise the timestamp field is parsed (aborting
the pass when malformed, modelled by `parseTimestamp`); the state is decoded from fields 7, 6, 5; and the first
INT rising edge ends the loop.  No comparison of consecutive timestamps
occurs anywhere in the loop. -/
def cit_loop (k : Nat) (prev : String) : List (List String) → CitOutcome
  | [] => CitOutcome.completed
  | parts :: rest =>
    if parts.length < 9 then cit_loop (k + 1) prev rest
    else
      match parseTimestamp (parts.getD 0 ("" : String)) with
      | none => CitOutcome.errorFloat k
      | some t =>
        let iv := strip (parts.getD 4 ("" : String))
        let st := decode_state_cit (strip (parts.getD 7 ("" : String)))
          (strip (parts.getD 6 ("" : String))) (strip (parts.getD 5 ("" : String)))
        if iv = ("1" : String) ∧ prev = ("0" : String) then CitOutcome.foundEdge k t st
        else cit_loop (k + 1) iv rest

/-- `check_int_timing.py` run from its initial `prev_int = '0'`. -/
def check_int_timing (lines : List (List String)) : CitOutcome :=
  cit_loop 0 ("0" : String) lines

/-- Bit `i` of byte `v` as a capture character. -/
def byteChar (v i : Nat) : Char :=
  if v / 2 ^ i % 2 = 1 then '1' else '0'

/-- A fully-resolved capture row: timestamp `t` (µs), sync, the three
state-select bits, CP_D_EN, INT, and the eight data-bit characters of
byte `v`. -/
def mkRow (t : Int) (sy c2 c1 c0 cp intc : Char) (v : Nat) : Row :=
  ⟨some t, sy, c2, c1, c0, cp, intc,
   byteChar v 7, byteChar v 6, byteChar v 5, byteChar v 4,
   byteChar v 3, byteChar v 2, byteChar v 1, byteChar v 0⟩


/-
Concrete capture fragments used to instantiate the theorems below.
Each claim has its own inputs so that they stand alone.
-/

/-- Scenario for the bus-contention characterization: one closed window
(samples 1-3, values 0x10, 0x20, 0x10) and a clean window before it. -/
def rowsC1wit : List Row :=
  [mkRow 0 '0' '0' '0' '0' '0' '0' 16,
   mkRow 1 '1' '0' '1' '0' '0' '0' 16,
   mkRow 2 '0' '1' '0' '0' '0' '0' 32,
   mkRow 3 '0' '1' '0' '0' '0' '0' 16,
   mkRow 4 '1' '0' '1' '0' '0' '0' 48]

/-- The state `analyze_glitches` computes on `rowsC1wit`. -/
def agOutC1wit : AGState :=
  match analyze_glitches rowsC1wit with
  | Except.ok st => st
  | Except.error _ => ag_init

/-- A capture whose FINAL window (opened by the sync edge at sample 1,
still open at end-of-stream) carries two distinct resolved data values,
0x10 and 0x20. -/
def rowsC1cex : List Row :=
  [mkRow 0 '0' '0' '0' '0' '0' '0' 16,
   mkRow 1 '1' '0' '1' '0' '0' '0' 16,
   mkRow 2 '0' '1' '0' '0' '0' '0' 32]

/-- The state `analyze_glitches` computes on `rowsC1cex`. -/
def agOutC1cex : AGState :=
  match analyze_glitches rowsC1cex with
  | Except.ok st => st
  | Except.error _ => ag_init

/-- A CP_D_EN change (0 to 1) exactly at a 1-to-0 sync edge — not a
recognized transition boundary. -/
def rowsC2cex : List Row :=
  [mkRow 0 '1' '0' '0' '0' '0' '0' 16,
   mkRow 1 '0' '0' '0' '0' '1' '0' 16]

/-- The state `analyze_glitches` computes on `rowsC2cex`. -/
def agOutC2cex : AGState :=
  match analyze_glitches rowsC2cex with
  | Except.ok st => st
  | Except.error _ => ag_init

/-- A CP_D_EN change between two samples with stable sync — a reported
signal glitch. -/
def rowsC2wit : List Row :=
  [mkRow 0 '0' '0' '0' '0' '0' '0' 16,
   mkRow 1 '0' '0' '0' '0' '1' '0' 16]

/-- The state `analyze_glitches` computes on `rowsC2wit`. -/
def agOutC2wit : AGState :=
  match analyze_glitches rowsC2wit with
  | Except.ok st => st
  | Except.error _ => ag_init

/-- An interrupt-acknowledge (T1I) transition arming the tracer, then a
T1 transition starting an instruction, then end-of-stream with the
instruction still pending. -/
def rowsC3cex : List Row :=
  [mkRow 0 '0' '0' '0' '0' '0' '1' 0,
   mkRow 1 '1' '1' '1' '0' '0' '1' 0,
   mkRow 2 '0' '0' '1' '0' '0' '0' 0,
   mkRow 3 '1' '0' '1' '0' '0' '0' 184]

/-- The state `trace_execution` computes on `rowsC3cex`. -/
def teOutC3cex : TEState :=
  match trace_execution_default rowsC3cex with
  | Except.ok st => st
  | Except.error _ => te_init

/-- A capture whose very first sample already carries INT = 1. -/
def rowsC4cex : List Row :=
  [mkRow 0 '0' '0' '0' '0' '0' '1' 0]

/-- Sync pattern 0,1,1,0,1 (edges at samples 1 and 4) and INT pattern
0,1,0,0,1 (edges at samples 1 and 4). -/
def rowsC4wit : List Row :=
  [mkRow 0 '0' '0' '0' '0' '0' '0' 7,
   mkRow 1 '1' '0' '1' '0' '0' '1' 7,
   mkRow 2 '1' '1' '0' '0' '0' '0' 7,
   mkRow 3 '0' '0' '0' '1' '0' '0' 7,
   mkRow 4 '1' '0' '1' '0' '0' '1' 7]

/-- The state `analyze_glitches` computes on `rowsC4wit`. -/
def agOutC4wit : AGState :=
  match analyze_glitches rowsC4wit with
  | Except.ok st => st
  | Except.error _ => ag_init

/-- The edge list `find_int_edges` computes on `rowsC4wit`. -/
def fieOutC4wit : List Nat :=
  match find_int_edges rowsC4wit with
  | Except.ok es => es
  | Except.error _ => []

/-- A row with one data bit carrying the indeterminate marker `'?'`. -/
def rowC6q : Row :=
  { mkRow 0 '0' '0' '1' '0' '0' '0' 184 with d3 := '?' }

/-- A fully-resolved row carrying data byte 0xB8. -/
def rowC6b8 : Row :=
  mkRow 0 '0' '0' '1' '0' '0' '0' 184

/-- A row with one data bit carrying an indeterminate marker other than
`'?'` (an `'X'`, as some capture tools emit). -/
def rowC6cex : Row :=
  { mkRow 0 '0' '0' '1' '0' '0' '0' 184 with d0 := 'X' }

/-- Armed tracer, a pending instruction, then two successive T3
transitions carrying opcode bytes 0xB8 and then 0x55. -/
def rowsC7cex : List Row :=
  [mkRow 0 '0' '0' '0' '0' '0' '1' 0,
   mkRow 1 '1' '1' '1' '0' '0' '1' 0,
   mkRow 2 '0' '0' '1' '0' '0' '0' 0,
   mkRow 3 '1' '0' '1' '0' '0' '0' 1,
   mkRow 4 '0' '0' '0' '1' '0' '0' 2,
   mkRow 5 '1' '0' '0' '1' '0' '0' 184,
   mkRow 6 '0' '0' '0' '1' '0' '0' 3,
   mkRow 7 '1' '0' '0' '1' '0' '0' 85]

/-- The state `trace_execution` computes on `rowsC7cex`. -/
def teOutC7cex : TEState :=
  match trace_execution_default rowsC7cex with
  | Except.ok st => st
  | Except.error _ => te_init

/-- An armed loop state awaiting a transition, used to exercise the
opcode-overwrite step and the instruction-limit break. -/
def teStArmed : TEState :=
  { te_init with prev_sync := some '0', after_t1i := true,
                 current_instr := ⟨some 1, some 2, some 2, some 184⟩ }

/-- A T3 transition row carrying data byte 0x55. -/
def rowT3x55 : Row :=
  mkRow 9 '1' '0' '0' '1' '0' '0' 85

/-- A T1 transition row, used to hit the instruction-limit break. -/
def rowT1brk : Row :=
  mkRow 9 '1' '0' '1' '0' '0' '0' 7

/-- A junk row that must never be consumed after a fired break. -/
def rowJunkC10 : Row :=
  ⟨none, '?', '?', '?', '?', '?', '?', '?', '?', '?', '?', '?', '?', '?', '?'⟩

/-- A capture with two complete instructions after arming (for the
instruction-limit bound). -/
def rowsC10wit : List Row :=
  [mkRow 0 '0' '0' '0' '0' '0' '1' 0,
   mkRow 1 '1' '1' '1' '0' '0' '1' 0,
   mkRow 2 '0' '0' '1' '0' '0' '0' 0,
   mkRow 3 '1' '0' '1' '0' '0' '0' 1,
   mkRow 4 '0' '0' '0' '1' '0' '0' 2,
   mkRow 5 '1' '0' '0' '1' '0' '0' 184,
   mkRow 6 '0' '0' '0' '1' '0' '0' 3,
   mkRow 7 '1' '0' '1' '0' '0' '0' 4,
   mkRow 8 '0' '0' '0' '1' '0' '0' 5,
   mkRow 9 '1' '0' '0' '1' '0' '0' 85,
   mkRow 10 '0' '0' '0' '1' '0' '0' 6,
   mkRow 11 '1' '0' '1' '0' '0' '0' 8]

/-- The state `trace_execution` computes on `rowsC10wit` with the
default limit. -/
def teOutC10wit : TEState :=
  match trace_execution_default rowsC10wit with
  | Except.ok st => st
  | Except.error _ => te_init

/-- A transition sample whose data byte is indeterminate: the
per-transition report of `trace_states.py` must format it. -/
def rowsC8bug : List Row :=
  [mkRow 1 '0' '0' '1' '0' '0' '0' 16,
   { mkRow 2 '1' '0' '1' '0' '0' '0' 16 with d0 := '?' }]

/-- Two well-formed 9-field rows whose timestamps strictly decrease
(5 then 3) and whose INT column never rises. -/
def linesC9cex : List (List String) :=
  [["5", "x", "x", "x", "0", "0", "1", "0", "x"],
   ["3", "x", "x", "x", "0", "0", "1", "0", "x"]]

/-- A single-row input whose timestamp field does not parse as a
number (see `partsC9bad` below). -/
def linesC9bad : List (List String) :=
  [["bad", "x", "x", "x", "0", "0", "1", "0", "x"]]

/-- A single well-formed 9-field row with a parseable timestamp. -/
def linesC9good : List (List String) :=
  [["7", "x", "x", "x", "0", "0", "1", "0", "x"]]

/-- A placeholder row (malformed timestamp, all lines indeterminate),
used as a `getD` default and as a row that must never be consumed. -/
def defaultRow : Row :=
  ⟨none, '?', '?', '?', '?', '?', '?', '?', '?', '?', '?', '?', '?', '?', '?'⟩

/-- The empty pending-instruction record. -/
def instrDefault : Instr :=
  ⟨none, none, none, none⟩

/-- Armed tracer state for the instruction-limit break step. -/
def teStBrk : TEState :=
  { te_init with prev_sync := some '0', after_t1i := true }

/-- Arming, one instruction with fetch (sample 3) and opcode 0xB8
(sample 5), finalized by the next T1 transition (sample 7). -/
def rowsC3wit : List Row :=
  [mkRow 0 '0' '0' '0' '0' '0' '1' 0,
   mkRow 1 '1' '1' '1' '0' '0' '1' 0,
   mkRow 2 '0' '0' '1' '0' '0' '0' 0,
   mkRow 3 '1' '0' '1' '0' '0' '0' 184,
   mkRow 4 '0' '0' '0' '1' '0' '0' 0,
   mkRow 5 '1' '0' '0' '1' '0' '0' 184,
   mkRow 6 '0' '0' '0' '1' '0' '0' 0,
   mkRow 7 '1' '0' '1' '0' '0' '0' 8]

/-- The state `trace_execution` computes on `rowsC3wit`. -/
def teOutC3wit : TEState :=
  match trace_execution_default rowsC3wit with
  | Except.ok st => st
  | Except.error _ => te_init

/-- The 9-field row whose timestamp field does not parse. -/
def partsC9bad : List String :=
  ["bad", "x", "x", "x", "0", "0", "1", "0", "x"]

/-
Helper lemmas.
-/

theorem distinctVals_length_le (l : List Nat) : (distinctVals l).length ≤ l.length := by
  induction l with
  | nil => simp [distinctVals]
  | cons v vs ih =>
    simp only [distinctVals, List.length_cons]
    have h := List.length_filter_le (fun w => w ≠ v) (distinctVals vs)
    omega

theorem contention_cond_iff (l : List Nat) :
    (1 < l.length ∧ 1 < (distinctVals l).length) ↔ 2 ≤ (distinctVals l).length := by
  constructor
  · rintro ⟨-, h⟩
    omega
  · intro h
    have hle := distinctVals_length_le l
    exact ⟨by omega, by omega⟩

theorem rowData_of_ok {r : Row} {d : Option Nat} (h : get_data_byte r = Except.ok d) :
    rowData r = d := by
  simp [rowData, h]

theorem bitVal?_ne_qm {c : Char} {v : Nat} (h : bitVal? c = some v) : c ≠ '?' := by
  intro e
  subst e
  have hq : bitVal? '?' = none := by decide
  rw [hq] at h
  exact Option.noConfusion h

theorem ag_step_i (r : Row) (d : Option Nat) (st : AGState) :
    (ag_step r d st).i = st.i + 1 := rfl

theorem ag_step_prev_sync (r : Row) (d : Option Nat) (st : AGState) :
    (ag_step r d st).prev_sync = some r.sync := rfl

theorem ag_step_prev_cp (r : Row) (d : Option Nat) (st : AGState) :
    (ag_step r d st).prev_cp_d_en = some r.cp_d_en := rfl

theorem ag_step_prev_state (r : Row) (d : Option Nat) (st : AGState) :
    (ag_step r d st).prev_state =
      if r.sync = '1' ∧ st.prev_sync = some '0' then some (get_state r)
      else st.prev_state := by
  unfold ag_step
  cases d <;> split_ifs <;> simp

theorem ag_step_css (r : Row) (d : Option Nat) (st : AGState) :
    (ag_step r d st).current_state_start =
      if r.sync = '1' ∧ st.prev_sync = some '0' then st.i
      else st.current_state_start := by
  unfold ag_step
  cases d <;> split_ifs <;> simp

theorem ag_step_vals (r : Row) (d : Option Nat) (st : AGState) :
    (ag_step r d st).state_data_values =
      (if r.sync = '1' ∧ st.prev_sync = some '0' then [] else st.state_data_values) ++ d.toList := by
  unfold ag_step
  cases d <;> split_ifs <;> simp

theorem ag_step_contentions (r : Row) (d : Option Nat) (st : AGState) :
    (ag_step r d st).contentions = st.contentions ++
      (if r.sync = '1' ∧ st.prev_sync = some '0' then
        (if 1 < st.state_data_values.length ∧ 1 < (distinctVals st.state_data_values).length then
          [⟨st.prev_state, withCounts st.state_data_values, st.current_state_start, st.i⟩]
        else [])
      else []) := by
  unfold ag_step
  cases d <;> split_ifs <;> simp

theorem ag_step_cpGlitches (r : Row) (d : Option Nat) (st : AGState) :
    (ag_step r d st).cpGlitches = st.cpGlitches ++
      (if st.prev_cp_d_en ≠ some r.cp_d_en ∧ st.prev_sync = some r.sync ∧ r.sync ≠ '?' then
        [⟨st.i, st.prev_cp_d_en, r.cp_d_en, get_state r, r.sync⟩]
      else []) := by
  unfold ag_step
  cases d <;> split_ifs <;> simp

theorem ag_step_transitions (r : Row) (d : Option Nat) (st : AGState) :
    (ag_step r d st).transitions = st.transitions ++
      (if r.sync = '1' ∧ st.prev_sync = some '0' then [st.i] else []) := by
  unfold ag_step
  cases d <;> split_ifs <;> simp

theorem ag_run_contentions :
    ∀ (rows : List Row) (st0 st : AGState), ag_run rows st0 = Except.ok st →
      st.contentions = st0.contentions ++
        contentionSpec st0.prev_sync st0.prev_state st0.state_data_values
          st0.current_state_start st0.i rows := by
  intro rows
  induction rows with
  | nil =>
    intro st0 st h
    simp only [ag_run, Except.ok.injEq] at h
    subst h
    simp [contentionSpec]
  | cons r rest ih =>
    intro st0 st h
    simp only [ag_run] at h
    cases hT : r.time with
    | none => rw [hT] at h; exact absurd h (by simp)
    | some t =>
      rw [hT] at h
      cases hD : get_data_byte r with
      | error e => rw [hD] at h; exact absurd h (by simp)
      | ok d =>
        rw [hD] at h
        have hrec := ih (ag_step r d st0) st h
        rw [hrec, ag_step_contentions, ag_step_prev_sync, ag_step_prev_state,
            ag_step_vals, ag_step_css, ag_step_i]
        have hrd : rowData r = d := rowData_of_ok hD
        by_cases h1 : r.sync = '1' ∧ st0.prev_sync = some '0'
        · simp only [contentionSpec, if_pos h1, hrd,
                     contention_cond_iff st0.state_data_values]
          by_cases h2 : 2 ≤ (distinctVals st0.state_data_values).length <;>
            simp [h2, List.append_assoc]
        · simp [contentionSpec, if_neg h1, hrd]

theorem ag_run_cpGlitches :
    ∀ (rows : List Row) (st0 st : AGState), ag_run rows st0 = Except.ok st →
      st.cpGlitches = st0.cpGlitches ++
        cpSpecFrom st0.prev_sync st0.prev_cp_d_en st0.i rows := by
  intro rows
  induction rows with
  | nil =>
    intro st0 st h
    simp only [ag_run, Except.ok.injEq] at h
    subst h
    simp [cpSpecFrom]
  | cons r rest ih =>
    intro st0 st h
    simp only [ag_run] at h
    cases hT : r.time with
    | none => rw [hT] at h; exact absurd h (by simp)
    | some t =>
      rw [hT] at h
      cases hD : get_data_byte r with
      | error e => rw [hD] at h; exact absurd h (by simp)
      | ok d =>
        rw [hD] at h
        have hrec := ih (ag_step r d st0) st h
        rw [hrec, ag_step_cpGlitches, ag_step_prev_sync, ag_step_prev_cp, ag_step_i]
        simp [cpSpecFrom, List.append_assoc]

theorem ag_run_transitions :
    ∀ (rows : List Row) (st0 st : AGState), ag_run rows st0 = Except.ok st →
      st.transitions = st0.transitions ++ edgeSpecFrom st0.prev_sync st0.i rows := by
  intro rows
  induction rows with
  | nil =>
    intro st0 st h
    simp only [ag_run, Except.ok.injEq] at h
    subst h
    simp [edgeSpecFrom]
  | cons r rest ih =>
    intro st0 st h
    simp only [ag_run] at h
    cases hT : r.time with
    | none => rw [hT] at h; exact absurd h (by simp)
    | some t =>
      rw [hT] at h
      cases hD : get_data_byte r with
      | error e => rw [hD] at h; exact absurd h (by simp)
      | ok d =>
        rw [hD] at h
        have hrec := ih (ag_step r d st0) st h
        rw [hrec, ag_step_transitions, ag_step_prev_sync, ag_step_i]
        simp [edgeSpecFrom, List.append_assoc]

theorem cpSpecFrom_pair :
    ∀ (rest : List Row) (a : Row) (k : Nat),
      cpSpecFrom (some a.sync) (some a.cp_d_en) (k + 1) rest = cpPairSpec k (a :: rest) := by
  intro rest
  induction rest with
  | nil => intro a k; simp [cpSpecFrom, cpPairSpec]
  | cons b rest ih =>
    intro a k
    simp only [cpSpecFrom, cpPairSpec]
    rw [ih b (k + 1)]

theorem cpSpecFrom_none (rows : List Row) :
    cpSpecFrom none none 0 rows = cpPairSpec 0 rows := by
  cases rows with
  | nil => simp [cpSpecFrom, cpPairSpec]
  | cons a rest =>
    simp only [cpSpecFrom]
    rw [cpSpecFrom_pair rest a 0]
    simp

theorem edgeSpecFrom_pair :
    ∀ (rest : List Row) (a : Row) (k : Nat),
      edgeSpecFrom (some a.sync) (k + 1) rest = edgePairSpec k (a :: rest) := by
  intro rest
  induction rest with
  | nil => intro a k; simp [edgeSpecFrom, edgePairSpec]
  | cons b rest ih =>
    intro a k
    simp only [edgeSpecFrom, edgePairSpec, Option.some.injEq]
    rw [ih b (k + 1)]

theorem edgeSpecFrom_none (rows : List Row) :
    edgeSpecFrom none 0 rows = edgePairSpec 0 rows := by
  cases rows with
  | nil => simp [edgeSpecFrom, edgePairSpec]
  | cons a rest =>
    simp only [edgeSpecFrom]
    rw [edgeSpecFrom_pair rest a 0]
    simp

theorem edgePairSpec_gt :
    ∀ (l : List Row) (k m : Nat), m ∈ edgePairSpec k l → k < m := by
  intro l
  induction l with
  | nil => intro k m h; simp [edgePairSpec] at h
  | cons a tail ih =>
    intro k m h
    cases tail with
    | nil => simp [edgePairSpec] at h
    | cons b rest =>
      simp only [edgePairSpec, List.mem_append] at h
      rcases h with h | h
      · by_cases hc : b.sync = '1' ∧ a.sync = '0'
        · rw [if_pos hc] at h
          simp at h
          omega
        · rw [if_neg hc] at h
          simp at h
      · have := ih (k + 1) m h
        omega

theorem intSpecFrom_pair :
    ∀ (rest : List Row) (a : Row) (k : Nat),
      intSpecFrom a.int_sig (k + 1) rest = intPairSpec k (a :: rest) := by
  intro rest
  induction rest with
  | nil => intro a k; simp [intSpecFrom, intPairSpec]
  | cons b rest ih =>
    intro a k
    simp only [intSpecFrom, intPairSpec]
    rw [ih b (k + 1)]

theorem fie_loop_ok :
    ∀ (rows : List Row) (prev : Char) (k : Nat) (es : List Nat),
      fie_loop prev k rows = Except.ok es → es = intSpecFrom prev k rows := by
  intro rows
  induction rows with
  | nil =>
    intro prev k es h
    simp only [fie_loop, Except.ok.injEq] at h
    subst h
    simp [intSpecFrom]
  | cons r rest ih =>
    intro prev k es h
    simp only [fie_loop] at h
    cases hT : r.time with
    | none => rw [hT] at h; exact absurd h (by simp)
    | some t =>
      rw [hT] at h
      cases hE : fie_loop r.int_sig (k + 1) rest with
      | error e => rw [hE] at h; exact absurd h (by simp)
      | ok es' =>
        rw [hE] at h
        simp only [Except.ok.injEq] at h
        subst h
        rw [ih r.int_sig (k + 1) es' hE]
        simp [intSpecFrom]

theorem te_step_cases (maxI : Nat) (r : Row) (d : Option Nat) (st : TEState) :
    ((te_step maxI r d st).1.events = st.events ∧
     (te_step maxI r d st).1.instr_num = st.instr_num ∧
     (te_step maxI r d st).1.after_t1i = st.after_t1i ∧
     (te_step maxI r d st).2 = false) ∨
    ((te_step maxI r d st).1.events = st.events ∧
     (te_step maxI r d st).1.instr_num = st.instr_num ∧
     ((te_step maxI r d st).2 = false → (te_step maxI r d st).1.instr_num < maxI)) ∨
    (st.after_t1i = true ∧
     (te_step maxI r d st).1.events = st.events ++ [st.current_instr] ∧
     (te_step maxI r d st).1.instr_num = st.instr_num + 1 ∧
     st.current_instr.t1_line ≠ none ∧ st.current_instr.t3_data ≠ none ∧
     ((te_step maxI r d st).2 = false → (te_step maxI r d st).1.instr_num < maxI)) := by
  unfold te_step
  by_cases h1 : r.sync = '1' ∧ st.prev_sync = some '0'
  · by_cases hI : get_state r = ("T1I" : String)
    · right; left
      by_cases hbrk : maxI ≤ st.instr_num
      · simp [h1, hI, hbrk]
      · simp [h1, hI, hbrk]
        omega
    · by_cases hA : st.after_t1i = true
      · by_cases hT1 : get_state r = ("T1" : String)
        · by_cases hfin : st.current_instr.t1_line ≠ none ∧ st.current_instr.t3_data ≠ none
          · right; right
            by_cases hbrk : maxI ≤ st.instr_num + 1
            · simp [h1, hI, hA, hT1, hfin, hfin.1, hfin.2, hbrk]
            · simp [h1, hI, hA, hT1, hfin, hfin.1, hfin.2, hbrk]
              omega
          · right; left
            by_cases hbrk : maxI ≤ st.instr_num
            · simp [h1, hI, hA, hT1, hfin, hbrk]
            · simp [h1, hI, hA, hT1, hfin, hbrk]
              omega
        · by_cases hT3 : get_state r = ("T3" : String)
          · right; left
            by_cases hbrk : maxI ≤ st.instr_num
            · simp [h1, hI, hA, hT1, hT3, hbrk]
            · simp [h1, hI, hA, hT1, hT3, hbrk]
              omega
          · right; left
            by_cases hbrk : maxI ≤ st.instr_num
            · simp [h1, hI, hA, hT1, hT3, hbrk]
            · simp [h1, hI, hA, hT1, hT3, hbrk]
              omega
      · left
        have hA' : st.after_t1i = false := by
          cases hv : st.after_t1i
          · rfl
          · exact absurd hv hA
        simp [h1, hI, hA']
  · left
    simp [h1]

theorem te_run_inv :
    ∀ (rows : List Row) (maxI : Nat) (st0 st : TEState),
      st0.events.length = st0.instr_num →
      st0.instr_num ≤ maxI →
      (st0.after_t1i = true → st0.instr_num < maxI) →
      (∀ e ∈ st0.events, e.t1_line ≠ none ∧ e.t3_data ≠ none) →
      te_run maxI rows st0 = Except.ok st →
      st.events.length ≤ maxI ∧ ∀ e ∈ st.events, e.t1_line ≠ none ∧ e.t3_data ≠ none := by
  intro rows
  induction rows with
  | nil =>
    intro maxI st0 st hlen hle harm hcompl h
    simp only [te_run, Except.ok.injEq] at h
    subst h
    exact ⟨by omega, hcompl⟩
  | cons r rest ih =>
    intro maxI st0 st hlen hle harm hcompl h
    simp only [te_run] at h
    cases hT : r.time with
    | none => rw [hT] at h; exact absurd h (by simp)
    | some t =>
      rw [hT] at h
      cases hD : get_data_byte r with
      | error e => rw [hD] at h; exact absurd h (by simp)
      | ok d =>
        rw [hD] at h
        dsimp only at h
        have hc := te_step_cases maxI r d st0
        by_cases hb : (te_step maxI r d st0).2 = true
        · rw [if_pos hb] at h
          simp only [Except.ok.injEq] at h
          subst h
          rcases hc with ⟨he, hn, _, hf⟩ | ⟨he, hn, _⟩ | ⟨hA, he, hn, h1n, h3n, _⟩
          · rw [hf] at hb; exact absurd hb (by simp)
          · refine ⟨?_, ?_⟩
            · rw [he]
              omega
            · rw [he]
              exact hcompl
          · have hlt : st0.instr_num < maxI := harm hA
            constructor
            · rw [he]
              simp only [List.length_append, List.length_cons, List.length_nil]
              omega
            · intro e hmem
              rw [he] at hmem
              rcases List.mem_append.mp hmem with hm | hm
              · exact hcompl e hm
              · rcases List.mem_singleton.mp hm with rfl
                exact ⟨h1n, h3n⟩
        · rw [if_neg hb] at h
          have hbf : (te_step maxI r d st0).2 = false := by
            cases hv : (te_step maxI r d st0).2
            · rfl
            · exact absurd hv hb
          rcases hc with ⟨he, hn, ha, _⟩ | ⟨he, hn, himp⟩ | ⟨hA, he, hn, h1n, h3n, himp⟩
          · refine ih maxI _ st ?_ ?_ ?_ ?_ h
            · rw [he, hn, hlen]
            · rw [hn]; exact hle
            · rw [ha, hn]; exact harm
            · rw [he]; exact hcompl
          · have hlt := himp hbf
            refine ih maxI _ st ?_ ?_ ?_ ?_ h
            · rw [he, hn, hlen]
            · rw [hn]; exact hle
            · intro _; exact hlt
            · rw [he]; exact hcompl
          · have hlt := himp hbf
            refine ih maxI _ st ?_ ?_ ?_ ?_ h
            · rw [he, hn]
              simp only [List.length_append, List.length_cons, List.length_nil]
              omega
            · omega
            · intro _; exact hlt
            · intro e hmem
              rw [he] at hmem
              rcases List.mem_append.mp hmem with hm | hm
              · exact hcompl e hm
              · rcases List.mem_singleton.mp hm with rfl
                exact ⟨h1n, h3n⟩

theorem te_step_t3 (maxI : Nat) (r : Row) (d : Option Nat) (st : TEState)
    (h1 : r.sync = '1') (h2 : st.prev_sync = some '0')
    (hA : st.after_t1i = true) (hT3 : get_state r = ("T3" : String)) :
    (te_step maxI r d st).1.current_instr =
      { st.current_instr with t3_line := some st.i, t3_data := d } := by
  unfold te_step
  by_cases hbrk : maxI ≤ st.instr_num <;>
    simp [h1, h2, hA, hT3, hbrk]

theorem te_run_break (maxI : Nat) (r : Row) (rest : List Row) (d : Option Nat)
    (st : TEState) (hT : r.time.isSome = true) (hD : get_data_byte r = Except.ok d)
    (hb : (te_step maxI r d st).2 = true) :
    te_run maxI (r :: rest) st = Except.ok (te_step maxI r d st).1 := by
  obtain ⟨t, ht⟩ := Option.isSome_iff_exists.mp hT
  simp only [te_run]
  rw [ht, hD]
  dsimp only
  rw [if_pos hb]

/-
Claim theorems.
-/

/-- C1 (amended): a BusContention event is emitted exactly for each
window CLOSED by a subsequent 0-to-1 sync transition in which two or more
distinct resolved data-bus values occur, carrying the enclosing state,
the distinct values with counts and the index range; the final window
between the last transition and end-of-stream is never checked and never
produces an event (`contentionSpec` discards the still-open window at
end-of-stream). -/
theorem claim_C1_contention_windows (rows : List Row) (st : AGState)
    (h : analyze_glitches rows = Except.ok st) :
    st.contentions = contentionSpec none none [] 0 0 rows := by
  have hrun := ag_run_contentions rows ag_init st h
  simpa [ag_init] using hrun

/-- C1 witness: on a capture with one closed window holding values
0x10, 0x20, 0x10 the characterization applies and yields exactly one
report with counts (0x10, 2), (0x20, 1). -/
theorem claim_C1_witness :
    agOutC1wit.contentions = contentionSpec none none [] 0 0 rowsC1wit ∧
    agOutC1wit.contentions =
      [⟨some ("T1" : String), [(16, 2), (32, 1)], 1, 4⟩] :=
  ⟨claim_C1_contention_windows rowsC1wit agOutC1wit (by decide), by decide⟩

/-- C1 counterexample: in `rowsC1cex` the final window (open at
end-of-stream) carries the two distinct resolved values 0x10 and 0x20,
yet the pass completes with no BusContention event — refuting the
claim's "including the final window between the last sync 0-to-1
transition and end-of-stream". -/
theorem claim_C1_counterexample :
    analyze_glitches rowsC1cex = Except.ok agOutC1cex ∧
    agOutC1cex.state_data_values = [16, 32] ∧
    2 ≤ (distinctVals agOutC1cex.state_data_values).length ∧
    agOutC1cex.contentions = [] := by decide

/-- C2 (amended): a CP_D_EN SignalGlitch is emitted exactly when the
monitored value differs between two adjacent samples AND the sync value
is unchanged across the pair AND is not indeterminate; any sync change
across the pair — including a 1-to-0 edge or a change to/from an
indeterminate value — suppresses the report. -/
theorem claim_C2_signal_glitches (rows : List Row) (st : AGState)
    (h : analyze_glitches rows = Except.ok st) :
    st.cpGlitches = cpPairSpec 0 rows := by
  have hrun := ag_run_cpGlitches rows ag_init st h
  rw [hrun]
  have hbr := cpSpecFrom_none rows
  simp only [ag_init] at hrun ⊢
  simpa [ag_init] using hbr

/-- C2 witness: a CP_D_EN change under stable sync is reported, and the
characterization applies. -/
theorem claim_C2_witness :
    agOutC2wit.cpGlitches = cpPairSpec 0 rowsC2wit ∧
    agOutC2wit.cpGlitches = [⟨1, some '0', '1', ("TWAIT" : String), '0'⟩] :=
  ⟨claim_C2_signal_glitches rowsC2wit agOutC2wit (by decide), by decide⟩

/-- C2 counterexample: in `rowsC2cex` the CP_D_EN value changes from 0
to 1 exactly at a 1-to-0 sync edge (not a recognized 0-to-1 transition),
yet no SignalGlitch is emitted — refuting the claim that such a change
"is still reported". -/
theorem claim_C2_counterexample :
    analyze_glitches rowsC2cex = Except.ok agOutC2cex ∧
    agOutC2cex.cpGlitches = [] ∧
    (rowsC2cex.getD 1 defaultRow).cp_d_en ≠ (rowsC2cex.getD 0 defaultRow).cp_d_en ∧
    (rowsC2cex.getD 0 defaultRow).sync = '1' ∧
    (rowsC2cex.getD 1 defaultRow).sync = '0' := by decide

/-- C4 (amended): the sync-line transition detector (prev value seeded
with a missing value) never fires on the first sample and fires exactly
once per strict 0-to-1 edge between adjacent samples; the interrupt-line
edge finder, whose previous value is seeded with '0', fires exactly on
the adjacent-pair 0-to-1 edges PLUS the very first sample whenever that
sample already carries INT = 1. -/
theorem claim_C4_edge_detection :
    (∀ (rows : List Row) (st : AGState), analyze_glitches rows = Except.ok st →
       st.transitions = edgePairSpec 0 rows ∧ 0 ∉ st.transitions) ∧
    (∀ (rows : List Row) (es : List Nat), find_int_edges rows = Except.ok es →
       es = (match rows with
             | [] => []
             | a :: _ => (if a.int_sig = '1' then [0] else []) ++ intPairSpec 0 rows)) := by
  constructor
  · intro rows st h
    have ht := ag_run_transitions rows ag_init st h
    have heq : st.transitions = edgePairSpec 0 rows := by
      rw [ht]
      have := edgeSpecFrom_none rows
      simpa [ag_init] using this
    refine ⟨heq, ?_⟩
    rw [heq]
    intro hmem
    have := edgePairSpec_gt rows 0 0 hmem
    omega
  · intro rows es h
    have hs := fie_loop_ok rows '0' 0 es h
    rw [hs]
    cases rows with
    | nil => simp [intSpecFrom]
    | cons a rest =>
      simp only [intSpecFrom]
      rw [intSpecFrom_pair rest a 0]
      simp

/-- C4 witness: on `rowsC4wit` the sync detector reports exactly the
adjacent-pair edges (samples 1 and 4, never sample 0), and the INT edge
finder matches its seeded characterization. -/
theorem claim_C4_witness :
    (agOutC4wit.transitions = edgePairSpec 0 rowsC4wit ∧ 0 ∉ agOutC4wit.transitions) ∧
    fieOutC4wit = (match rowsC4wit with
                   | [] => []
                   | a :: _ => (if a.int_sig = '1' then [0] else []) ++ intPairSpec 0 rowsC4wit) :=
  ⟨claim_C4_edge_detection.1 rowsC4wit agOutC4wit (by decide),
   claim_C4_edge_detection.2 rowsC4wit fieOutC4wit (by decide)⟩

/-- C4 counterexample: on a capture whose single (hence first) sample
carries INT = 1, `find_int_edges` reports an edge at index 0 — its
`prev_int` is seeded with '0' rather than with a missing value, refuting
"transition detection never fires on the very first sample ... for the
interrupt-line edge finder alike, including when the first sample
already carries value 1". -/
theorem claim_C4_counterexample :
    find_int_edges rowsC4cex = Except.ok [0] ∧ rowsC4cex.length = 1 ∧
    (rowsC4cex.getD 0 defaultRow).int_sig = '1' := by decide

/-- C3 (amended): an instruction is emitted only at a later T1
transition when both its fetch sample and its opcode data are set; a
still-pending instruction at end-of-stream is silently discarded — the
pass never emits an incomplete (or incomplete-marked) instruction. -/
theorem claim_C3_pending_discarded (maxI : Nat) (rows : List Row) (st : TEState)
    (h : te_run maxI rows te_init = Except.ok st) :
    ∀ e ∈ st.events, e.t1_line ≠ none ∧ e.t3_data ≠ none :=
  (te_run_inv rows maxI te_init st (by simp [te_init]) (by simp [te_init])
    (by simp [te_init]) (by simp [te_init]) h).2

/-- C3 witness: the single instruction emitted on `rowsC3wit` has both
its fetch sample and opcode data set. -/
theorem claim_C3_witness :
    (teOutC3wit.events.getD 0 instrDefault).t1_line ≠ none ∧
    (teOutC3wit.events.getD 0 instrDefault).t3_data ≠ none :=
  claim_C3_pending_discarded 30 rowsC3wit teOutC3wit (by decide)
    (teOutC3wit.events.getD 0 instrDefault) (by decide)

/-- C3 counterexample: on `rowsC3cex` the stream ends with an
instruction pending (its fetch sample, index 3, is set), yet the pass
emits no instruction event at all — the pending instruction is silently
dropped rather than emitted marked incomplete. -/
theorem claim_C3_counterexample :
    trace_execution_default rowsC3cex = Except.ok teOutC3cex ∧
    teOutC3cex.current_instr.t1_line = some 3 ∧
    teOutC3cex.events = [] := by decide

/-- C5 (amended): the shared `STATES`-dict decoders return exactly the
section-4.1 table on all 8 resolved patterns and map out-of-table
patterns to an unknown variant retaining the raw bits; the inline
decoder of `check_int_timing.py`, however, covers only six patterns:
011 (halted) and 000 (idle/wait) fall through to a bare 'UNKNOWN' that
does not retain the bit pattern. -/
theorem claim_C5_state_tables :
    get_state (mkRow 0 '0' '0' '1' '0' '0' '0' 0) = ("T1" : String) ∧
    get_state (mkRow 0 '0' '1' '1' '0' '0' '0' 0) = ("T1I" : String) ∧
    get_state (mkRow 0 '0' '1' '0' '0' '0' '0' 0) = ("T2" : String) ∧
    get_state (mkRow 0 '0' '0' '0' '1' '0' '0' 0) = ("T3" : String) ∧
    get_state (mkRow 0 '0' '1' '0' '1' '0' '0' 0) = ("T5" : String) ∧
    get_state (mkRow 0 '0' '1' '1' '1' '0' '0' 0) = ("T4" : String) ∧
    get_state (mkRow 0 '0' '0' '0' '0' '0' '0' 0) = ("TWAIT" : String) ∧
    get_state (mkRow 0 '0' '0' '1' '1' '0' '0' 0) = ("STOPPED" : String) ∧
    get_state_ts (mkRow 0 '0' '0' '1' '0' '0' '0' 0) = ("T1" : String) ∧
    get_state_ts (mkRow 0 '0' '1' '1' '0' '0' '0' 0) = ("T1I" : String) ∧
    get_state_ts (mkRow 0 '0' '1' '0' '0' '0' '0' 0) = ("T2" : String) ∧
    get_state_ts (mkRow 0 '0' '0' '0' '1' '0' '0' 0) = ("T3" : String) ∧
    get_state_ts (mkRow 0 '0' '1' '0' '1' '0' '0' 0) = ("T5" : String) ∧
    get_state_ts (mkRow 0 '0' '1' '1' '1' '0' '0' 0) = ("T4" : String) ∧
    get_state_ts (mkRow 0 '0' '0' '0' '0' '0' '0' 0) = ("TWAIT" : String) ∧
    get_state_ts (mkRow 0 '0' '0' '1' '1' '0' '0' 0) = ("STOPPED" : String) ∧
    get_state { mkRow 0 '0' '0' '1' '0' '0' '0' 0 with s2 := '?' } = ("UNKNOWN(?10)" : String) ∧
    get_state_ts { mkRow 0 '0' '0' '1' '0' '0' '0' 0 with s2 := '?' } = ("UNK(?10)" : String) ∧
    decode_state_cit ("0" : String) ("1" : String) ("0" : String) = ("T1" : String) ∧
    decode_state_cit ("1" : String) ("0" : String) ("0" : String) = ("T2" : String) ∧
    decode_state_cit ("0" : String) ("0" : String) ("1" : String) = ("T3" : String) ∧
    decode_state_cit ("1" : String) ("1" : String) ("0" : String) = ("T1I" : String) ∧
    decode_state_cit ("1" : String) ("0" : String) ("1" : String) = ("T5" : String) ∧
    decode_state_cit ("1" : String) ("1" : String) ("1" : String) = ("T4" : String) ∧
    decode_state_cit ("0" : String) ("1" : String) ("1" : String) = ("UNKNOWN" : String) ∧
    decode_state_cit ("0" : String) ("0" : String) ("0" : String) = ("UNKNOWN" : String) := by
  decide

/-- C5 counterexample: on the resolved pattern 011 (halted/STOPPED in
the section-4.1 table) the `check_int_timing.py` decoder returns a bare
'UNKNOWN' — disagreeing with the table (and with the dict-based
decoders) and retaining no bit pattern, refuting "every state-decoding
variant in the source returns exactly the fixed table". -/
theorem claim_C5_counterexample :
    decode_state_cit ("0" : String) ("1" : String) ("1" : String) = ("UNKNOWN" : String) ∧
    STATES ("011" : String) = some ("STOPPED" : String) ∧
    ("UNKNOWN" : String) ≠ ("STOPPED" : String) := by decide

/-- C6 (amended): when any data-bus bit is the marker '?' the whole
byte is reported indeterminate (never partially decoded, never treated
as 0), and when all eight bits are binary the byte is reconstructed
MSB-first; but a bit carrying any OTHER non-binary marker makes
`int(bits, 2)` raise rather than report the byte indeterminate. -/
theorem claim_C6_byte_decode :
    (∀ r : Row, '?' ∈ dataBits r → get_data_byte r = Except.ok none) ∧
    (∀ (r : Row) (v7 v6 v5 v4 v3 v2 v1 v0 : Nat),
       bitVal? r.d7 = some v7 → bitVal? r.d6 = some v6 →
       bitVal? r.d5 = some v5 → bitVal? r.d4 = some v4 →
       bitVal? r.d3 = some v3 → bitVal? r.d2 = some v2 →
       bitVal? r.d1 = some v1 → bitVal? r.d0 = some v0 →
       get_data_byte r = Except.ok (some
         (128 * v7 + 64 * v6 + 32 * v5 + 16 * v4 + 8 * v3 + 4 * v2 + 2 * v1 + v0))) := by
  constructor
  · intro r h
    unfold get_data_byte
    rw [if_pos h]
  · intro r v7 v6 v5 v4 v3 v2 v1 v0 h7 h6 h5 h4 h3 h2 h1 h0
    have n7 := bitVal?_ne_qm h7
    have n6 := bitVal?_ne_qm h6
    have n5 := bitVal?_ne_qm h5
    have n4 := bitVal?_ne_qm h4
    have n3 := bitVal?_ne_qm h3
    have n2 := bitVal?_ne_qm h2
    have n1 := bitVal?_ne_qm h1
    have n0 := bitVal?_ne_qm h0
    have hnot : ¬ ('?' ∈ dataBits r) := by
      intro hmem
      simp only [dataBits, List.mem_cons, List.not_mem_nil, or_false] at hmem
      rcases hmem with h | h | h | h | h | h | h | h <;> exact absurd h.symm (by assumption)
    unfold get_data_byte
    rw [if_neg hnot]
    simp only [dataBits, parseBin, h7, h6, h5, h4, h3, h2, h1, h0]
    congr 2
    omega

/-- C6 witness: a byte with one '?' bit decodes to Python `None`, and
the fully-resolved byte 0xB8 decodes MSB-first to 184. -/
theorem claim_C6_witness :
    get_data_byte rowC6q = Except.ok none ∧
    get_data_byte rowC6b8 = Except.ok (some 184) :=
  ⟨claim_C6_byte_decode.1 rowC6q (by decide),
   claim_C6_byte_decode.2 rowC6b8 1 0 1 1 1 0 0 0 (by decide) (by decide) (by decide)
     (by decide) (by decide) (by decide) (by decide) (by decide)⟩

/-- C6 counterexample: a data bit carrying the indeterminate marker 'X'
(not '?') makes the decoder raise ValueError instead of reporting the
byte as indeterminate — refuting "any indeterminate marker, not only
'?'". -/
theorem claim_C6_counterexample :
    get_data_byte rowC6cex =
      Except.error ("ValueError: invalid literal for int() with base 2" : String) ∧
    get_data_byte rowC6cex ≠ Except.ok none := by decide

/-- C7 (amended): on a data-transfer (T3) transition while armed, the
current sample is ALWAYS recorded as the opcode sample, overwriting any
previously recorded one — the last T3 transition before finalization
wins, not the first; the recording is not conditional on the opcode
sample being unset. -/
theorem claim_C7_opcode_overwrite (maxI : Nat) (r : Row) (d : Option Nat) (st : TEState)
    (h1 : r.sync = '1') (h2 : st.prev_sync = some '0')
    (hA : st.after_t1i = true) (hT3 : get_state r = ("T3" : String)) :
    (te_step maxI r d st).1.current_instr =
      { st.current_instr with t3_line := some st.i, t3_data := d } :=
  te_step_t3 maxI r d st h1 h2 hA hT3

/-- C7 witness: a T3 transition over a pending instruction whose opcode
sample is already set (0xB8) records the new sample (0x55). -/
theorem claim_C7_witness :
    (te_step 30 rowT3x55 (some 85) teStArmed).1.current_instr =
      { teStArmed.current_instr with t3_line := some teStArmed.i, t3_data := some 85 } :=
  claim_C7_opcode_overwrite 30 rowT3x55 (some 85) teStArmed (by decide) (by decide)
    (by decide) (by decide)

/-- C7 counterexample: on `rowsC7cex` two successive T3 transitions
carry 0xB8 then 0x55; the recorded opcode sample ends as 0x55, not the
first value 0xB8 — refuting "once set, a later data-transfer-phase
transition ... leaves the recorded opcode sample unchanged". -/
theorem claim_C7_counterexample :
    trace_execution_default rowsC7cex = Except.ok teOutC7cex ∧
    teOutC7cex.current_instr.t3_data = some 85 ∧
    teOutC7cex.current_instr.t3_data ≠ some 184 := by decide

/-- C8: a sync-transition sample whose data byte is indeterminate makes
the per-transition report of `trace_states.py` raise TypeError (its
f-string formats Python `None` with `:02X`), aborting the pass instead
of surfacing the ambiguity as data — the guard two lines earlier shows
the intent, making this a slip in the code rather than in the spec. -/
theorem claim_C8_report_raises :
    trace_states 0 100 rowsC8bug = Except.error tsTypeErrorMsg := by decide

/-- C9 (amended): a row (with at least 9 fields) whose timestamp does
not parse aborts the pass at that row with the uncaught float-parse
error and nothing past it is processed; when every such row's timestamp
parses, the pass never aborts, regardless of timestamp ORDER and of any
unrecognized state pattern — no out-of-order check exists; and a row
with fewer than 9 comma-separated fields is silently skipped. -/
theorem claim_C9_timestamp_policy :
    (∀ (k : Nat) (prev : String) (parts : List String) (rest : List (List String)),
       9 ≤ parts.length → parseTimestamp (parts.getD 0 ("" : String)) = none →
       cit_loop k prev (parts :: rest) = CitOutcome.errorFloat k) ∧
    (∀ (lines : List (List String)) (k : Nat) (prev : String) (j : Nat),
       (∀ parts ∈ lines, 9 ≤ parts.length → (parseTimestamp (parts.getD 0 ("" : String))).isSome = true) →
       cit_loop k prev lines ≠ CitOutcome.errorFloat j) ∧
    (∀ (k : Nat) (prev : String) (parts : List String) (rest : List (List String)),
       parts.length < 9 →
       cit_loop k prev (parts :: rest) = cit_loop (k + 1) prev rest) := by
  refine ⟨?_, ?_, ?_⟩
  · intro k prev parts rest h9 hbad
    simp only [cit_loop]
    rw [if_neg (by omega)]
    rw [hbad]
  · intro lines
    induction lines with
    | nil =>
      intro k prev j hyp
      simp only [cit_loop]
      intro hcc
      exact CitOutcome.noConfusion hcc
    | cons parts rest ih =>
      intro k prev j hyp
      simp only [cit_loop]
      by_cases h9 : parts.length < 9
      · rw [if_pos h9]
        exact ih (k + 1) prev j (fun p hp => hyp p (List.mem_cons_of_mem parts hp))
      · rw [if_neg h9]
        have hs := hyp parts (List.mem_cons_self parts rest) (by omega)
        obtain ⟨t, ht⟩ := Option.isSome_iff_exists.mp hs
        rw [ht]
        dsimp only
        by_cases hedge : strip (parts.getD 4 ("" : String)) = ("1" : String) ∧ prev = ("0" : String)
        · rw [if_pos hedge]
          intro hcc
          exact CitOutcome.noConfusion hcc
        · rw [if_neg hedge]
          exact ih (k + 1) _ j (fun p hp => hyp p (List.mem_cons_of_mem parts hp))
  · intro k prev parts rest h
    simp only [cit_loop]
    rw [if_pos h]

/-- C9 witness: the malformed-timestamp row aborts at index 0; a
well-formed single-row input never reports a float error; a 2-field row
is skipped. -/
theorem claim_C9_witness :
    cit_loop 0 ("0" : String) linesC9bad = CitOutcome.errorFloat 0 ∧
    cit_loop 0 ("0" : String) linesC9good ≠ CitOutcome.errorFloat 0 ∧
    cit_loop 5 ("0" : String) [["1", "2"]] = cit_loop 6 ("0" : String) [] :=
  ⟨claim_C9_timestamp_policy.1 0 ("0" : String) partsC9bad [] (by decide) (by decide),
   claim_C9_timestamp_policy.2.1 linesC9good 0 ("0" : String) 0 (by decide),
   claim_C9_timestamp_policy.2.2 5 ("0" : String) ["1", "2"] [] (by decide)⟩

/-- C9 counterexample: `linesC9cex` has two well-formed rows with
strictly DECREASING parseable timestamps (5 then 3), and the pass runs
to completion with no reported error — refuting "out of order ... aborts
the pass with a reported error". -/
theorem claim_C9_counterexample :
    check_int_timing linesC9cex = CitOutcome.completed ∧
    parseTimestamp ((linesC9cex.getD 0 []).getD 0 ("" : String)) = some 5 ∧
    parseTimestamp ((linesC9cex.getD 1 []).getD 0 ("" : String)) = some 3 := by decide

/-- C10: `trace_execution` takes a maximum-instructions parameter
defaulting to 30; every successful pass finalizes at most that many
instruction events; and once the break fires at a transition the
remaining samples are not consumed (the result ignores the tail). -/
theorem claim_C10_instruction_limit :
    (∀ (rows : List Row) (maxI : Nat) (st : TEState),
       trace_execution rows maxI = Except.ok st → st.events.length ≤ maxI) ∧
    (∀ rows : List Row, trace_execution_default rows = trace_execution rows 30) ∧
    (∀ (maxI : Nat) (r : Row) (rest : List Row) (d : Option Nat) (st : TEState),
       r.time.isSome = true → get_data_byte r = Except.ok d →
       (te_step maxI r d st).2 = true →
       te_run maxI (r :: rest) st = Except.ok (te_step maxI r d st).1) := by
  refine ⟨?_, fun rows => rfl, ?_⟩
  · intro rows maxI st h
    exact (te_run_inv rows maxI te_init st (by simp [te_init]) (by simp [te_init])
      (by simp [te_init]) (by simp [te_init]) h).1
  · intro maxI r rest d st hT hD hb
    exact te_run_break maxI r rest d st hT hD hb

/-- C10 witness: the bound holds on a 12-sample capture; the default
expands to limit 30; and with limit 0 an armed transition breaks at
once, never consuming the following malformed row. -/
theorem claim_C10_witness :
    teOutC10wit.events.length ≤ 30 ∧
    trace_execution_default rowsC10wit = trace_execution rowsC10wit 30 ∧
    te_run 0 (rowT1brk :: [defaultRow]) teStBrk =
      Except.ok (te_step 0 rowT1brk (some 7) teStBrk).1 :=
  ⟨claim_C10_instruction_limit.1 rowsC10wit 30 teOutC10wit (by decide),
   claim_C10_instruction_limit.2.1 rowsC10wit,
   claim_C10_instruction_limit.2.2 0 rowT1brk [defaultRow] (some 7) teStBrk
     (by decide) (by decide) (by decide)⟩
